import Mathlib

/-!
Verification of the DTLS record layer (`ssl/record/methods/dtls_meth.c`)
against its natural-language specification.  The C functions are shallowly
embedded as executable Lean definitions; machine integers are modelled as
`Nat`/`Int` with explicit `% 2 ^ w` where the C arithmetic can wrap.
-/

namespace DtlsMeth

/-! ## Sequence arithmetic (`satsub64be`) -/

/-- Two's-complement reading of a 64-bit unsigned value, as the C conversion
`(int64_t)` of a `uint64_t` performs on the source platforms. -/
def toSigned64 (n : Nat) : Int :=
  if n < 2 ^ 63 then (n : Int) else (n : Int) - 2 ^ 64

/-- Wrapping 64-bit subtraction `l1 - l2` on unsigned operands. -/
def sub64 (l1 l2 : Nat) : Nat :=
  (l1 + (2 ^ 64 - l2)) % 2 ^ 64

/-- Embedding of `satsub64be` (dtls_meth.c:15): mod-128 saturating subtract of
two 64-bit big-endian sequence numbers, here already decoded to `Nat`.
`ret = l1 - l2` is the wrapped difference reinterpreted as signed; the two
wrap-around guards fire before the ±128 clamp. -/
def satsub64be (l1 l2 : Nat) : Int :=
  let ret : Int := toSigned64 (sub64 l1 l2)
  if l1 > l2 ∧ ret < 0 then 128
  else if l2 > l1 ∧ ret > 0 then -128
  else if ret > 128 then 128
  else if ret < -128 then -128
  else ret

/-- `satsub64be` computes the integer difference clamped to `[-128, 128]`. -/
theorem satsub64be_eq_clamp (a b : Nat) (ha : a < 2 ^ 64) (hb : b < 2 ^ 64) :
    satsub64be a b = max (-128) (min 128 ((a : Int) - b)) := by
  unfold satsub64be sub64 toSigned64
  have hmod : (a + (2 ^ 64 - b)) % 2 ^ 64
      = if b ≤ a then a - b else a + (2 ^ 64 - b) := by
    rcases le_or_lt b a with h | h
    · have : a + (2 ^ 64 - b) = (a - b) + 2 ^ 64 := by omega
      rw [this, Nat.add_mod_right, Nat.mod_eq_of_lt (by omega)]
      simp [h]
    · rw [Nat.mod_eq_of_lt (by omega)]
      simp [not_le_of_lt h]
  rw [hmod]
  rcases le_or_lt b a with h | h
  · simp only [if_pos h]
    split_ifs <;> push_cast <;> omega
  · simp only [if_neg (not_le_of_lt h)]
    split_ifs <;> push_cast <;> omega

/-- C5: for 64-bit operands, `satsub64be` returns the signed difference
`a - b` whenever `|a - b| ≤ 128`; it returns exactly `+128` when `a - b > 128`
(which in particular covers the wrap-around of the 64-bit subtraction with
`a > b`, where `a - b ≥ 2 ^ 63 > 128`), and exactly `-128` when `a - b < -128`
(covering the wrap-around with `b > a`). -/
theorem satsub64be_spec (a b : Nat) (ha : a < 2 ^ 64) (hb : b < 2 ^ 64) :
    (((a : Int) - b).natAbs ≤ 128 → satsub64be a b = (a : Int) - b)
      ∧ ((a : Int) - b > 128 → satsub64be a b = 128)
      ∧ ((a : Int) - b < -128 → satsub64be a b = -128) := by
  rw [satsub64be_eq_clamp a b ha hb]
  refine ⟨fun h => by omega, fun h => by omega, fun h => by omega⟩

theorem satsub64be_spec_witness :
    (((300 : Int) - 250).natAbs ≤ 128 → satsub64be 300 250 = (300 : Int) - 250)
      ∧ ((300 : Int) - 250 > 128 → satsub64be 300 250 = 128)
      ∧ ((300 : Int) - 250 < -128 → satsub64be 300 250 = -128) :=
  satsub64be_spec 300 250 (by norm_num) (by norm_num)

/-! ## Protocol constants

Numeric values of the OpenSSL header constants used by `dtls_meth.c`
(`ssl3.h`, `dtls1.h`, TLS alert registry); the spec quotes
`MAX_ENCRYPTED = 2 ^ 14 + 2048`. -/

def SSL3_RT_MAX_PLAIN_LENGTH : Nat := 16384

def SSL3_RT_MAX_COMPRESSED_LENGTH : Nat := SSL3_RT_MAX_PLAIN_LENGTH + 1024

def SSL3_RT_MAX_ENCRYPTED_LENGTH : Nat := SSL3_RT_MAX_COMPRESSED_LENGTH + 1024

def SSL3_RT_MAX_ENCRYPTED_OVERHEAD : Nat := 256 + 64

def EVP_MAX_MD_SIZE : Nat := 64

def SSL3_RT_CHANGE_CIPHER_SPEC : Nat := 20

def SSL3_RT_ALERT : Nat := 21

def SSL3_RT_HANDSHAKE : Nat := 22

def SSL3_RT_APPLICATION_DATA : Nat := 23

def SSL_AD_BAD_RECORD_MAC : Nat := 20

def SSL_AD_RECORD_OVERFLOW : Nat := 22

def SSL_AD_DECOMPRESSION_FAILURE : Nat := 30

def SSL_AD_DECODE_ERROR : Nat := 50

def SSL_AD_INTERNAL_ERROR : Nat := 80

def DTLS1_VERSION : Nat := 0xFEFF

def DTLS1_2_VERSION : Nat := 0xFEFD

def DTLS_ANY_VERSION : Nat := 0x1FFFF

def DTLS1_VERSION_MAJOR : Nat := 0xFE

/-! ## Replay window (`DTLS_BITMAP`) -/

/-- `DTLS_BITMAP`: `map` is the 64-bit window bitmap (kept `< 2 ^ 64`),
`max_seq_num` the highest accepted sequence number, 8-byte big-endian in C
and decoded to a `Nat < 2 ^ 64` here. -/
structure DTLS_BITMAP where
  map : Nat
  max_seq_num : Nat
deriving Repr, DecidableEq

/-- The three ways `dtls_record_replay_check` (dtls_meth.c:39) can classify a
sequence number; the C function returns `1` on `fresh` and `0` on the other
two, distinguished by which branch returns (source comments: "this record in
new", "stale, outside the window", "record previously received"). -/
inductive ReplayClass where
  | fresh
  | stale
  | duplicate
deriving Repr, DecidableEq

/-- Embedding of `dtls_record_replay_check` (dtls_meth.c:39).  `seq` is the
record's sequence number (`rl->sequence` decoded); the bit test
`bitmap->map & ((uint64_t)1 << shift)` becomes `Nat.testBit`. -/
def dtls_record_replay_check (seq : Nat) (bitmap : DTLS_BITMAP) : ReplayClass :=
  let cmp := satsub64be seq bitmap.max_seq_num
  if cmp > 0 then .fresh
  else
    let shift := (-cmp).toNat
    if shift ≥ 64 then .stale
    else if Nat.testBit bitmap.map shift then .duplicate
    else .fresh

/-- Embedding of `dtls_record_bitmap_update` (dtls_meth.c:60).  The C shift
`bitmap->map <<= shift` wraps modulo `2 ^ 64`. -/
def dtls_record_bitmap_update (seq : Nat) (bitmap : DTLS_BITMAP) : DTLS_BITMAP :=
  let cmp := satsub64be seq bitmap.max_seq_num
  if cmp > 0 then
    let shift := cmp.toNat
    if shift < 64 then
      ⟨((bitmap.map <<< shift) % 2 ^ 64) ||| 1, seq⟩
    else
      ⟨1, seq⟩
  else
    let shift := (-cmp).toNat
    if shift < 64 then
      ⟨bitmap.map ||| 2 ^ shift, bitmap.max_seq_num⟩
    else
      bitmap

/-- C4: with `d = satsub64be seq max_seq`, the replay check classifies `seq`
as fresh if `d > 0`; else stale if `-d ≥ 64`; else duplicate if bit `-d` of
the bitmap is set; else fresh.  In particular a sequence at least 64 below
`max_seq` is always stale and a sequence above `max_seq` is always fresh. -/
theorem dtls_record_replay_check_spec (seq : Nat) (w : DTLS_BITMAP)
    (hs : seq < 2 ^ 64) (hm : w.max_seq_num < 2 ^ 64) :
    (dtls_record_replay_check seq w =
      (if satsub64be seq w.max_seq_num > 0 then .fresh
       else if 64 ≤ -satsub64be seq w.max_seq_num then .stale
       else if Nat.testBit w.map (-satsub64be seq w.max_seq_num).toNat then
         .duplicate
       else .fresh))
    ∧ (seq + 64 ≤ w.max_seq_num → dtls_record_replay_check seq w = .stale)
    ∧ (w.max_seq_num < seq → dtls_record_replay_check seq w = .fresh) := by
  have hclamp := satsub64be_eq_clamp seq w.max_seq_num hs hm
  refine ⟨?_, ?_, ?_⟩
  · simp only [dtls_record_replay_check, gt_iff_lt]
    by_cases h : 0 < satsub64be seq w.max_seq_num
    · simp [h]
    · simp only [if_neg h]
      by_cases h64 : 64 ≤ (-satsub64be seq w.max_seq_num).toNat
      · have h64i : 64 ≤ -satsub64be seq w.max_seq_num := by omega
        rw [if_pos h64, if_pos h64i]
      · have h64i : ¬64 ≤ -satsub64be seq w.max_seq_num := by omega
        rw [if_neg h64, if_neg h64i]
  · intro hfar
    have h1 : satsub64be seq w.max_seq_num ≤ -64 := by
      rw [hclamp]; omega
    have h2 : ¬0 < satsub64be seq w.max_seq_num := by omega
    have h3 : 64 ≤ (-satsub64be seq w.max_seq_num).toNat := by omega
    simp only [dtls_record_replay_check, gt_iff_lt]
    rw [if_neg h2, if_pos h3]
  · intro hnew
    have h1 : 0 < satsub64be seq w.max_seq_num := by
      rw [hclamp]; omega
    simp only [dtls_record_replay_check, gt_iff_lt]
    rw [if_pos h1]

theorem dtls_record_replay_check_spec_witness :
    ((5 : Nat) < 2 ^ 64 ∧ (1000 : Nat) < 2 ^ 64)
      ∧ ((5 : Nat) + 64 ≤ 1000 → dtls_record_replay_check 5 ⟨0, 1000⟩ = .stale) :=
  ⟨⟨by norm_num, by norm_num⟩,
    (dtls_record_replay_check_spec 5 ⟨0, 1000⟩ (by norm_num) (by norm_num)).2.1⟩

/-! ## Epoch router (`dtls_get_bitmap`) -/

/-- Which of the two live replay windows `dtls_get_bitmap` can select:
`&rl->bitmap` (current epoch) or `&rl->next_bitmap`. -/
inductive BitmapSel where
  | currentBM
  | nextBM
deriving Repr, DecidableEq

/-- The record-layer fields consulted by `dtls_get_bitmap`: `rl->epoch` and
the unprocessed queue's recorded epoch `rl->unprocessed_rcds.epoch`.  Both
hold 16-bit epoch values (`uint16_t epoch` in `dtls_new_record_layer`). -/
structure RouterState where
  epoch : Nat
  unprocessed_epoch : Nat
deriving Repr, DecidableEq

/-- Embedding of `dtls_get_bitmap` (dtls_meth.c:82).  The C comparison
`rr->epoch == (unsigned long)(rl->epoch + 1)` promotes the 16-bit
`rl->epoch` to `int` before adding 1 and widening, so `65535 + 1 = 65536`
with no 16-bit wrap; `Nat` addition matches this.  The result pairs the
selected bitmap (`none` = drop the packet on the floor) with the
`*is_next_epoch` out-parameter. -/
def dtls_get_bitmap (rl : RouterState) (rrEpoch rrType : Nat) :
    Option BitmapSel × Bool :=
  if rrEpoch = rl.epoch then (some .currentBM, false)
  else if rrEpoch = rl.epoch + 1 ∧ rl.unprocessed_epoch ≠ rl.epoch
      ∧ (rrType = SSL3_RT_HANDSHAKE ∨ rrType = SSL3_RT_ALERT) then
    (some .nextBM, true)
  else (none, false)

/-- The epoch bookkeeping `dtls_new_record_layer` (dtls_meth.c:657-661)
performs on success: the unprocessed queue records `epoch + 1`, the layer
records `epoch`. -/
def dtls_new_record_layer_router_state (epoch : Nat) : RouterState :=
  ⟨epoch, epoch + 1⟩

/-- C1 as stated is false on the code: on the freshly initialised layer at
epoch 0 the unprocessed queue records epoch 1 ≠ 0, yet a handshake record at
epoch 1 is routed to the next-epoch window — the source condition
(dtls_meth.c:97) is `rl->unprocessed_rcds.epoch != rl->epoch`, not
equality as the claim states. -/
theorem dtls_get_bitmap_claim_counterexample :
    dtls_get_bitmap (dtls_new_record_layer_router_state 0) 1 SSL3_RT_HANDSHAKE
        = (some .nextBM, true)
      ∧ (dtls_new_record_layer_router_state 0).unprocessed_epoch
        ≠ (dtls_new_record_layer_router_state 0).epoch := by
  constructor
  · decide
  · decide

/-- C1 amended: the router returns the next-epoch window (with
`is_next_epoch` set) iff `e = current_epoch + 1`, the unprocessed queue's
recorded epoch DIFFERS from the current epoch, and the type is handshake or
alert; records at the current epoch get the current window, all others get
no window (silent drop). -/
theorem dtls_get_bitmap_spec (rl : RouterState) (rrEpoch rrType : Nat) :
    (dtls_get_bitmap rl rrEpoch rrType = (some .nextBM, true)
      ↔ rrEpoch = rl.epoch + 1 ∧ rl.unprocessed_epoch ≠ rl.epoch
          ∧ (rrType = SSL3_RT_HANDSHAKE ∨ rrType = SSL3_RT_ALERT))
    ∧ (rrEpoch = rl.epoch
        → dtls_get_bitmap rl rrEpoch rrType = (some .currentBM, false))
    ∧ (rrEpoch ≠ rl.epoch
        → ¬(rrEpoch = rl.epoch + 1 ∧ rl.unprocessed_epoch ≠ rl.epoch
            ∧ (rrType = SSL3_RT_HANDSHAKE ∨ rrType = SSL3_RT_ALERT))
        → dtls_get_bitmap rl rrEpoch rrType = (none, false)) := by
  refine ⟨⟨?_, ?_⟩, ?_, ?_⟩
  · intro h
    by_cases h1 : rrEpoch = rl.epoch
    · rw [dtls_get_bitmap, if_pos h1] at h
      exact absurd h (by simp)
    · rw [dtls_get_bitmap, if_neg h1] at h
      by_cases h2 : rrEpoch = rl.epoch + 1 ∧ rl.unprocessed_epoch ≠ rl.epoch
          ∧ (rrType = SSL3_RT_HANDSHAKE ∨ rrType = SSL3_RT_ALERT)
      · exact h2
      · rw [if_neg h2] at h
        exact absurd h (by simp)
  · intro h2
    obtain ⟨he, hu, ht⟩ := h2
    have h1 : rrEpoch ≠ rl.epoch := by omega
    rw [dtls_get_bitmap, if_neg h1, if_pos ⟨he, hu, ht⟩]
  · intro h1
    rw [dtls_get_bitmap, if_pos h1]
  · intro h1 h2
    rw [dtls_get_bitmap, if_neg h1, if_neg h2]

theorem dtls_get_bitmap_spec_witness :
    dtls_get_bitmap ⟨3, 4⟩ 4 SSL3_RT_HANDSHAKE = (some .nextBM, true) :=
  (dtls_get_bitmap_spec ⟨3, 4⟩ 4 SSL3_RT_HANDSHAKE).1.mpr (by decide)

/-- C10: when the layer's epoch is 65535 the successor comparison computes
`65535 + 1 = 65536` without wrapping to 0, so no inbound record — its epoch
field is parsed from 2 bytes and hence `< 2 ^ 16` — is ever routed to the
next-epoch window; in particular an epoch-0 record gets no window. -/
theorem dtls_get_bitmap_max_epoch (rl : RouterState) (rrEpoch rrType : Nat)
    (hmax : rl.epoch = 65535) (hrr : rrEpoch < 65536) :
    (dtls_get_bitmap rl rrEpoch rrType).2 = false
      ∧ (dtls_get_bitmap rl rrEpoch rrType).1 ≠ some .nextBM
      ∧ (rrEpoch = 0 → dtls_get_bitmap rl rrEpoch rrType = (none, false)) := by
  have hne : ¬(rrEpoch = rl.epoch + 1 ∧ rl.unprocessed_epoch ≠ rl.epoch
      ∧ (rrType = SSL3_RT_HANDSHAKE ∨ rrType = SSL3_RT_ALERT)) := by
    rintro ⟨he, -, -⟩
    omega
  by_cases h1 : rrEpoch = rl.epoch
  · rw [dtls_get_bitmap, if_pos h1]
    exact ⟨rfl, by simp, fun h0 => by omega⟩
  · rw [dtls_get_bitmap, if_neg h1, if_neg hne]
    exact ⟨rfl, by simp, fun _ => rfl⟩

theorem dtls_get_bitmap_max_epoch_witness :
    (dtls_get_bitmap ⟨65535, 0⟩ 0 SSL3_RT_HANDSHAKE).2 = false
      ∧ (dtls_get_bitmap ⟨65535, 0⟩ 0 SSL3_RT_HANDSHAKE).1 ≠ some .nextBM
      ∧ ((0 : Nat) = 0
          → dtls_get_bitmap ⟨65535, 0⟩ 0 SSL3_RT_HANDSHAKE = (none, false)) :=
  dtls_get_bitmap_max_epoch ⟨65535, 0⟩ 0 SSL3_RT_HANDSHAKE rfl (by norm_num)

/-! ## Record processing (`dtls_process_record`) -/

/-- Cipher/MAC/compression configuration of the layer together with the
oracle outcomes of the external crypto callbacks (`rl->funcs->mac`,
`rl->funcs->cipher`, `tls_do_uncompress` live outside this source file) for
one `dtls_process_record` call. -/
structure ProcEnv where
  /-- `rl->use_etm` -/
  use_etm : Bool
  /-- `rl->md_ctx != NULL` -/
  mdCtxPresent : Bool
  /-- `EVP_MD_CTX_get0_md(rl->md_ctx) != NULL` -/
  mdInstalled : Bool
  /-- `EVP_MD_get_size` of the installed digest -/
  macSize : Nat
  /-- `rl->enc_ctx != NULL` -/
  encPresent : Bool
  /-- `rl->compctx != NULL` -/
  compPresent : Bool
  /-- `rl->max_frag_len` -/
  max_frag_len : Nat
  /-- ETM path: `funcs->mac` succeeded and `CRYPTO_memcmp` matched -/
  etmMacOk : Bool
  /-- `enc_err` as returned by `funcs->cipher` -/
  cipherRet : Bool
  /-- alert recorded by the cipher when it returns 0 (`none` = no alert) -/
  cipherAlert : Option Nat
  /-- `rr->length` after in-place decryption -/
  cipherLen : Nat
  /-- MtE path: mac computed, `macbuf.mac` present and `CRYPTO_memcmp` matched -/
  mteMacOk : Bool
  /-- `tls_do_uncompress` result -/
  uncompressOk : Bool
  /-- `rr->length` after decompression -/
  uncompressLen : Nat
deriving Repr, DecidableEq

/-- How one `dtls_process_record` call ends: `success` (return 1),
`silentDrop` (return 0 with `rl->alert` still `SSL_AD_NO_ALERT`: the caller
dumps the packet and loops), or `fatal a` (return 0 after `RLAYERfatal`
recorded alert `a`). -/
inductive ProcResult where
  | success
  | silentDrop
  | fatal (alert : Nat)
deriving Repr, DecidableEq

/-- Embedding of `dtls_process_record` (dtls_meth.c:111).  Mirrors the C
control flow: encrypted-length guard, `mac_size` setup with the
`ossl_assert` bound, the ETM pre-decryption MAC (length underflow then MAC
compare), the cipher call, the MtE post-decryption MAC with its compressed
length bound, decompression, the max-fragment check, and finally the replay
window update — which runs only on the all-checks-passed path. -/
def dtls_process_record (env : ProcEnv) (rrLength seq : Nat)
    (bitmap : DTLS_BITMAP) : ProcResult × DTLS_BITMAP :=
  if rrLength > SSL3_RT_MAX_ENCRYPTED_LENGTH then
    (.fatal SSL_AD_RECORD_OVERFLOW, bitmap)
  else if env.mdCtxPresent ∧ env.mdInstalled ∧ env.macSize > EVP_MAX_MD_SIZE then
    (.fatal SSL_AD_INTERNAL_ERROR, bitmap)
  else
    let mac_size := if env.mdCtxPresent ∧ env.mdInstalled then env.macSize else 0
    if env.use_etm ∧ env.mdCtxPresent ∧ rrLength < mac_size then
      (.fatal SSL_AD_DECODE_ERROR, bitmap)
    else if env.use_etm ∧ env.mdCtxPresent ∧ ¬env.etmMacOk then
      (.fatal SSL_AD_BAD_RECORD_MAC, bitmap)
    else
      let mac_size1 := if env.use_etm ∧ env.mdCtxPresent then 0 else mac_size
      if ¬env.cipherRet then
        match env.cipherAlert with
        | some a => (.fatal a, bitmap)
        | none => (.silentDrop, bitmap)
      else
        let len1 := env.cipherLen
        if (¬env.use_etm ∧ env.encPresent ∧ env.mdCtxPresent ∧ env.mdInstalled)
            ∧ (¬env.mteMacOk ∨ len1 > SSL3_RT_MAX_COMPRESSED_LENGTH + mac_size1) then
          (.silentDrop, bitmap)
        else if env.compPresent ∧ len1 > SSL3_RT_MAX_COMPRESSED_LENGTH then
          (.fatal SSL_AD_RECORD_OVERFLOW, bitmap)
        else if env.compPresent ∧ ¬env.uncompressOk then
          (.fatal SSL_AD_DECOMPRESSION_FAILURE, bitmap)
        else
          let len2 := if env.compPresent then env.uncompressLen else len1
          if len2 > env.max_frag_len then
            (.fatal SSL_AD_RECORD_OVERFLOW, bitmap)
          else
            (.success, dtls_record_bitmap_update seq bitmap)

/-- C3: the replay-window update happens only after the record has passed
decryption and MAC verification — on every path of `dtls_process_record`
that does not end in success (ETM MAC mismatch, decrypt failure, MtE MAC
mismatch, decompression failure, overflow) the window state is returned
unchanged. -/
theorem dtls_process_record_window_untouched (env : ProcEnv)
    (rrLength seq : Nat) (bm : DTLS_BITMAP)
    (hfail : (dtls_process_record env rrLength seq bm).1 ≠ .success) :
    (dtls_process_record env rrLength seq bm).2 = bm := by
  simp only [dtls_process_record] at hfail ⊢
  by_cases h1 : rrLength > SSL3_RT_MAX_ENCRYPTED_LENGTH
  · rw [if_pos h1]
  · rw [if_neg h1] at hfail ⊢
    by_cases h2 : env.mdCtxPresent ∧ env.mdInstalled
        ∧ env.macSize > EVP_MAX_MD_SIZE
    · rw [if_pos h2]
    · rw [if_neg h2] at hfail ⊢
      by_cases h3 : env.use_etm ∧ env.mdCtxPresent ∧ rrLength
          < (if env.mdCtxPresent ∧ env.mdInstalled then env.macSize else 0)
      · rw [if_pos h3]
      · rw [if_neg h3] at hfail ⊢
        by_cases h4 : env.use_etm ∧ env.mdCtxPresent ∧ ¬env.etmMacOk
        · rw [if_pos h4]
        · rw [if_neg h4] at hfail ⊢
          by_cases h5 : ¬env.cipherRet
          · rw [if_pos h5]
            rcases env.cipherAlert with _ | a <;> rfl
          · rw [if_neg h5] at hfail ⊢
            by_cases h6 : (¬env.use_etm ∧ env.encPresent ∧ env.mdCtxPresent
                  ∧ env.mdInstalled)
                ∧ (¬env.mteMacOk
                  ∨ env.cipherLen > SSL3_RT_MAX_COMPRESSED_LENGTH
                    + (if env.use_etm ∧ env.mdCtxPresent then 0
                       else if env.mdCtxPresent ∧ env.mdInstalled then
                         env.macSize
                       else 0))
            · rw [if_pos h6]
            · rw [if_neg h6] at hfail ⊢
              by_cases h7 : env.compPresent
                  ∧ env.cipherLen > SSL3_RT_MAX_COMPRESSED_LENGTH
              · rw [if_pos h7]
              · rw [if_neg h7] at hfail ⊢
                by_cases h8 : env.compPresent ∧ ¬env.uncompressOk
                · rw [if_pos h8]
                · rw [if_neg h8] at hfail ⊢
                  by_cases h9 : (if env.compPresent then env.uncompressLen
                      else env.cipherLen) > env.max_frag_len
                  · rw [if_pos h9]
                  · rw [if_neg h9] at hfail
                    exact absurd rfl hfail

theorem dtls_process_record_window_untouched_witness :
    (dtls_process_record
        ⟨true, true, true, 32, true, false, 16384, true, true, none, 100,
          true, true, 100⟩
        20000 7 ⟨0, 0⟩).1 ≠ .success
      ∧ (dtls_process_record
          ⟨true, true, true, 32, true, false, 16384, true, true, none, 100,
            true, true, 100⟩
          20000 7 ⟨0, 0⟩).2 = ⟨0, 0⟩ :=
  ⟨by decide,
    dtls_process_record_window_untouched _ 20000 7 ⟨0, 0⟩ (by decide)⟩

/-- C6: MAC-failure handling is asymmetric by mode.  With encrypt-then-MAC
active and a MAC context present: a record shorter than the MAC is a fatal
`decode_error`, and a MAC mismatch is a fatal `bad_record_mac`.  Without
ETM: a decrypt failure (cipher returns 0 with no alert recorded) and an MtE
MAC mismatch are both silent drops — no alert, the caller loops to the next
record. -/
theorem dtls_mac_failure_asymmetry (env : ProcEnv) (rrLength seq : Nat)
    (bm : DTLS_BITMAP)
    (hlen : rrLength ≤ SSL3_RT_MAX_ENCRYPTED_LENGTH)
    (hmac : env.macSize ≤ EVP_MAX_MD_SIZE) :
    (env.use_etm = true → env.mdCtxPresent = true → env.mdInstalled = true
      → rrLength < env.macSize
      → (dtls_process_record env rrLength seq bm).1
          = .fatal SSL_AD_DECODE_ERROR)
    ∧ (env.use_etm = true → env.mdCtxPresent = true → env.mdInstalled = true
      → env.macSize ≤ rrLength → env.etmMacOk = false
      → (dtls_process_record env rrLength seq bm).1
          = .fatal SSL_AD_BAD_RECORD_MAC)
    ∧ (env.use_etm = false → env.cipherRet = false → env.cipherAlert = none
      → (dtls_process_record env rrLength seq bm).1 = .silentDrop)
    ∧ (env.use_etm = false → env.encPresent = true → env.mdCtxPresent = true
      → env.mdInstalled = true → env.cipherRet = true → env.mteMacOk = false
      → (dtls_process_record env rrLength seq bm).1 = .silentDrop) := by
  have h1 : ¬rrLength > SSL3_RT_MAX_ENCRYPTED_LENGTH := by omega
  have h2 : ¬env.macSize > EVP_MAX_MD_SIZE := by omega
  refine ⟨?_, ?_, ?_, ?_⟩
  · intro hetm hctx hmd hshort
    simp [dtls_process_record, h1, h2, hetm, hctx, hmd, hshort]
  · intro hetm hctx hmd hge hbad
    have h3 : ¬rrLength < env.macSize := by omega
    simp [dtls_process_record, h1, h2, h3, hetm, hctx, hmd, hbad]
  · intro hetm hcr hca
    simp [dtls_process_record, h1, h2, hetm, hcr, hca]
  · intro hetm henc hctx hmd hcr hbad
    simp [dtls_process_record, h1, h2, hetm, henc, hctx, hmd, hcr, hbad]

theorem dtls_mac_failure_asymmetry_witness :
    ((100 : Nat) ≤ SSL3_RT_MAX_ENCRYPTED_LENGTH ∧ (32 : Nat) ≤ EVP_MAX_MD_SIZE)
      ∧ (dtls_process_record
          ⟨true, true, true, 32, true, false, 16384, false, true, none, 60,
            true, true, 60⟩
          100 7 ⟨0, 0⟩).1 = .fatal SSL_AD_BAD_RECORD_MAC :=
  ⟨⟨by norm_num [SSL3_RT_MAX_ENCRYPTED_LENGTH, SSL3_RT_MAX_COMPRESSED_LENGTH,
      SSL3_RT_MAX_PLAIN_LENGTH], by norm_num [EVP_MAX_MD_SIZE]⟩,
    (dtls_mac_failure_asymmetry
        ⟨true, true, true, 32, true, false, 16384, false, true, none, 60,
          true, true, 60⟩
        100 7 ⟨0, 0⟩ (by decide) (by decide)).2.1
      rfl rfl rfl (by norm_num) rfl⟩

/-! ## Header validation in `dtls_get_more_records` -/

/-- The layer fields consulted by the post-parse header checks. -/
structure HeaderEnv where
  /-- `rl->is_first_record` -/
  is_first_record : Bool
  /-- `rl->version`, the negotiated 16-bit protocol version (or
  `DTLS_ANY_VERSION`) -/
  version : Nat
  /-- `rl->max_frag_len` -/
  max_frag_len : Nat
deriving Repr, DecidableEq

/-- Embedding of the post-parse header checks of `dtls_get_more_records`
(dtls_meth.c:456-490): the exact-version check (skipped for the first record
on the layer and for alert records), the major-version-byte check, the
maximum-encrypted-length check and the max-fragment check.  `false` means
silent drop: the code zeroes `rr->length` and `rl->packet_length` and loops
for the next datagram, surfacing no error and emitting no alert. -/
def dtls_header_checks (rl : HeaderEnv)
    (rrType ssl_major ssl_minor rrLength : Nat) : Bool :=
  let version := ssl_major <<< 8 ||| ssl_minor
  if ¬rl.is_first_record ∧ rrType ≠ SSL3_RT_ALERT ∧ version ≠ rl.version then
    false
  else if ssl_major
      ≠ (if rl.version = DTLS_ANY_VERSION then DTLS1_VERSION_MAJOR
         else rl.version / 256) then
    false
  else if rrLength > SSL3_RT_MAX_ENCRYPTED_LENGTH then
    false
  else if rrLength > rl.max_frag_len + SSL3_RT_MAX_ENCRYPTED_OVERHEAD then
    false
  else true

/-- C8: a non-first, non-alert record whose 16-bit header version differs
from the layer's negotiated version is silently dropped; first records and
alert records are exempt from this exact-version check — for them the
outcome depends only on the major byte and the length bounds, never on the
full 16-bit version equality. -/
theorem dtls_header_checks_version (rl : HeaderEnv)
    (rrType ssl_major ssl_minor rrLength : Nat) :
    (rl.is_first_record = false → rrType ≠ SSL3_RT_ALERT
      → ssl_major <<< 8 ||| ssl_minor ≠ rl.version
      → dtls_header_checks rl rrType ssl_major ssl_minor rrLength = false)
    ∧ ((rl.is_first_record = true ∨ rrType = SSL3_RT_ALERT)
      → (dtls_header_checks rl rrType ssl_major ssl_minor rrLength = true
        ↔ ssl_major
            = (if rl.version = DTLS_ANY_VERSION then DTLS1_VERSION_MAJOR
               else rl.version / 256)
          ∧ rrLength ≤ SSL3_RT_MAX_ENCRYPTED_LENGTH
          ∧ rrLength ≤ rl.max_frag_len + SSL3_RT_MAX_ENCRYPTED_OVERHEAD)) := by
  constructor
  · intro hf ht hv
    rw [dtls_header_checks, if_pos ⟨by simp [hf], ht, hv⟩]
  · intro hfirst
    have hn : ¬(¬rl.is_first_record ∧ rrType ≠ SSL3_RT_ALERT
        ∧ ssl_major <<< 8 ||| ssl_minor ≠ rl.version) := by
      rcases hfirst with h | h
      · simp [h]
      · rintro ⟨-, ht, -⟩
        exact ht h
    rw [dtls_header_checks, if_neg hn]
    split_ifs with hA hB hC <;> simp_all

theorem dtls_header_checks_version_witness :
    ((⟨false, DTLS1_2_VERSION, 16384⟩ : HeaderEnv).is_first_record = false
      ∧ SSL3_RT_HANDSHAKE ≠ SSL3_RT_ALERT
      ∧ (0xFE : Nat) <<< 8 ||| 0xFF ≠ DTLS1_2_VERSION)
      ∧ dtls_header_checks ⟨false, DTLS1_2_VERSION, 16384⟩ SSL3_RT_HANDSHAKE
          0xFE 0xFF 50 = false :=
  ⟨⟨rfl, by decide, by decide⟩,
    (dtls_header_checks_version ⟨false, DTLS1_2_VERSION, 16384⟩
        SSL3_RT_HANDSHAKE 0xFE 0xFF 50).1 rfl (by decide) (by decide)⟩

/-! ## Buffering next-epoch records -/

/-- Embedding of the return value of `dtls_rlayer_buffer_record`
(dtls_meth.c:284): `0` when the queue already holds 100 items (the DoS cap),
`-1` when `OPENSSL_malloc`/`pitem_new` fails or the replacement read buffer
cannot be set up (in both cases `RLAYERfatal(..., INTERNAL_ERROR, ...)` has
been raised), and `1` otherwise — including the duplicate-priority case, in
which `pqueue_insert` returns NULL and the record is freed but the function
still returns `1`. -/
def dtls_rlayer_buffer_record (qsize : Nat) (allocOk setupOk : Bool) : Int :=
  if qsize ≥ 100 then 0
  else if ¬allocOk then -1
  else if ¬setupOk then -1
  else 1

/-- How the `is_next_epoch` branch of `dtls_get_more_records` ends. -/
inductive ReadOutcome where
  /-- `return OSSL_RECORD_RETURN_FATAL` -/
  | fatalReturn
  /-- dump the packet and `goto again` -/
  | loopAgain
deriving Repr, DecidableEq

/-- Embedding of the next-epoch branch of `dtls_get_more_records`
(dtls_meth.c:550-561): with a handshake in progress (`rl->in_init`) the
record is pushed onto `unprocessed_rcds`; only a negative return from
`dtls_rlayer_buffer_record` is surfaced as fatal, every other outcome dumps
the packet and loops for the next datagram. -/
def dtls_next_epoch_action (in_init : Bool) (qsize : Nat)
    (allocOk setupOk : Bool) : ReadOutcome :=
  if in_init then
    if dtls_rlayer_buffer_record qsize allocOk setupOk < 0 then .fatalReturn
    else .loopAgain
  else .loopAgain

/-- C2 as stated is false on the code: with `in_init` set and the
unprocessed queue already at its 100-item cap, the enqueue attempt fails
(`dtls_rlayer_buffer_record` returns 0, nothing is inserted) yet
`dtls_get_more_records` does not surface a fatal error — the caller only
checks for a negative return, so the queue-full case silently drops the
record and loops. -/
theorem dtls_queue_full_not_fatal :
    dtls_rlayer_buffer_record 100 true true = 0
      ∧ dtls_next_epoch_action true 100 true true = .loopAgain := by
  constructor
  · decide
  · decide

/-- C2 amended: in the next-epoch branch with `in_init` set, a fatal error
is surfaced iff the enqueue attempt fails with a negative return — an
allocation or read-buffer-setup failure on a non-full queue.  Queue-full
(100 items) makes `dtls_rlayer_buffer_record` return 0: the record is
dropped silently and the read loop continues. -/
theorem dtls_next_epoch_action_fatal_iff (in_init : Bool) (qsize : Nat)
    (allocOk setupOk : Bool) :
    dtls_next_epoch_action in_init qsize allocOk setupOk = .fatalReturn
      ↔ in_init = true ∧ qsize < 100 ∧ ¬(allocOk = true ∧ setupOk = true) := by
  rcases in_init with _ | _ <;> rcases allocOk with _ | _
    <;> rcases setupOk with _ | _
    <;> by_cases hq : qsize ≥ 100
    <;> simp [dtls_next_epoch_action, dtls_rlayer_buffer_record, hq]
    <;> omega

theorem dtls_next_epoch_action_fatal_iff_witness :
    dtls_next_epoch_action true 5 false true = .fatalReturn :=
  (dtls_next_epoch_action_fatal_iff true 5 false true).mpr
    ⟨rfl, by norm_num, by simp⟩

/-! ## Write-retry guard (`ssl3_write_pending`) -/

/-- The pending-write fields `dtls_write_records` memorises
(dtls_meth.c:945-948) so that `ssl3_write_pending` can detect bad retries.
The buffer is identified by its address; pointer identity is modelled as a
`Nat`. -/
structure WPendState where
  wpend_tot : Nat
  wpend_buf : Nat
  wpend_type : Nat
deriving Repr, DecidableEq

/-- Embedding of the bad-retry guard of `ssl3_write_pending`
(dtls_meth.c:712-717): the retry is rejected (fatal `SSL_R_BAD_WRITE_RETRY`
via `SSLfatal(..., INTERNAL_ERROR, ...)`) iff the pending total exceeds the
new length, or the buffer pointer moved while
`SSL_MODE_ACCEPT_MOVING_WRITE_BUFFER` is unset, or the record type changed;
`true` = proceed to the transport write loop. -/
def ssl3_write_pending_guard (s : WPendState) (acceptMoving : Bool)
    (ty buf len : Nat) : Bool :=
  if s.wpend_tot > len ∨ (¬acceptMoving ∧ s.wpend_buf ≠ buf)
      ∨ s.wpend_type ≠ ty then
    false
  else true

/-- The memorisation `dtls_write_records` performs before calling
`ssl3_write_pending` with the same `(type, buf, buflen)` triple
(dtls_meth.c:945-952). -/
def dtls_write_records_wpend (ty buf buflen : Nat) : WPendState :=
  ⟨buflen, buf, ty⟩

/-- C9 as stated is false on the code: a retry whose length grew from 5 to 6
— so its `(buf, type, total_len)` triple does not match the original — is
accepted by the guard, because the code only rejects `wpend_tot > len`. -/
theorem write_retry_counterexample :
    ((1, 23, 6) : Nat × Nat × Nat) ≠ ((1, 23, 5) : Nat × Nat × Nat)
      ∧ ssl3_write_pending_guard (dtls_write_records_wpend 23 1 5) false
          23 1 6 = true := by
  constructor
  · decide
  · decide

/-- C9 amended: the retry is rejected with fatal `bad_write_retry` iff the
new length is smaller than the originally attempted total, or the buffer
pointer differs while moving-write-buffer mode is off, or the type differs;
a retry matching the memorised triple proceeds, and the initial call made by
`dtls_write_records` with its own just-memorised triple always proceeds. -/
theorem ssl3_write_pending_guard_spec (s : WPendState) (acceptMoving : Bool)
    (ty buf len : Nat) :
    (ssl3_write_pending_guard s acceptMoving ty buf len = false
      ↔ len < s.wpend_tot ∨ (acceptMoving = false ∧ buf ≠ s.wpend_buf)
        ∨ ty ≠ s.wpend_type)
    ∧ (ty = s.wpend_type → buf = s.wpend_buf → len = s.wpend_tot
      → ssl3_write_pending_guard s acceptMoving ty buf len = true)
    ∧ ssl3_write_pending_guard (dtls_write_records_wpend ty buf len)
        acceptMoving ty buf len = true := by
  refine ⟨?_, ?_, ?_⟩
  · have hdef : ssl3_write_pending_guard s acceptMoving ty buf len = false
        ↔ (s.wpend_tot > len ∨ (¬acceptMoving ∧ s.wpend_buf ≠ buf)
            ∨ s.wpend_type ≠ ty) := by
      rw [ssl3_write_pending_guard]
      split_ifs with hc
      · exact iff_of_true rfl hc
      · exact iff_of_false (by simp) hc
    rw [hdef]
    constructor
    · rintro (h1 | ⟨h2a, h2b⟩ | h3)
      · exact Or.inl h1
      · exact Or.inr (Or.inl ⟨by simpa using h2a, h2b.symm⟩)
      · exact Or.inr (Or.inr h3.symm)
    · rintro (h1 | ⟨h2a, h2b⟩ | h3)
      · exact Or.inl h1
      · exact Or.inr (Or.inl ⟨by simp [h2a], h2b.symm⟩)
      · exact Or.inr (Or.inr h3.symm)
  · intro h1 h2 h3
    rw [ssl3_write_pending_guard,
      if_neg (by rw [h1, h2, h3]; simp)]
  · rw [ssl3_write_pending_guard, dtls_write_records_wpend,
      if_neg (by simp)]

theorem ssl3_write_pending_guard_spec_witness :
    ((23 : Nat) = 23 ∧ (1 : Nat) = 1 ∧ (5 : Nat) = 5)
      ∧ ssl3_write_pending_guard ⟨5, 1, 23⟩ false 23 1 5 = true :=
  ⟨⟨rfl, rfl, rfl⟩,
    (ssl3_write_pending_guard_spec ⟨5, 1, 23⟩ false 23 1 5).2.1 rfl rfl rfl⟩

/-! ## Deferred-record queue and teardown (`dtls_free`) -/

/-- Modelled from the spec: the `pqueue` implementation (`ssl/pqueue.c`) is
code of this repository that is not part of this source file.  Per spec
§4.5, the deferred-record queue is a priority queue ordered by the 8-byte
big-endian priority `(epoch << 48 | seq)` (decoded here to a `Nat`); insert
places the item before the first larger priority and silently rejects a
duplicate priority (`pqueue_insert` returns NULL, modelled as `none`).  The
queue is a list of `(priority, raw packet)` pairs in strictly increasing
priority order. -/
def pqueue_insert {α : Type} (p : Nat) (x : α) :
    List (Nat × α) → Option (List (Nat × α))
  | [] => some [(p, x)]
  | (q, y) :: rest =>
    if p < q then some ((p, x) :: (q, y) :: rest)
    else if p = q then none
    else Option.map (fun t => (q, y) :: t) (pqueue_insert p x rest)

/-- Modelled from the spec: `pqueue_pop` removes and returns the
smallest-priority item — the head of the sorted list. -/
def pqueue_pop {α : Type} :
    List (Nat × α) → Option ((Nat × α) × List (Nat × α))
  | [] => none
  | it :: rest => some (it, rest)

/-- The `while ((item = pqueue_pop(...)) != NULL)` loop of `dtls_free`
(dtls_meth.c:598-606): pop until empty, collecting each item's raw
packet in pop order. -/
def pqueue_drain {α : Type} : List (Nat × α) → List α
  | [] => []
  | (_, pkt) :: rest => pkt :: pqueue_drain rest

/-- The teardown-relevant state of `dtls_free` (dtls_meth.c:577): leftover
unread read-buffer bytes (`rbuf->left` with the bytes at `buf + offset`),
the unprocessed queue, and the processed queue — whose items `dtls_free`
frees without writing. -/
structure FreeState where
  rbuf_left : Nat
  rbuf_bytes : List Nat
  unprocessed : List (Nat × List Nat)
  processed : List (Nat × List Nat)

/-- Embedding of the successor-sink writes of `dtls_free`
(dtls_meth.c:585-618): if leftover bytes remain they are flushed first by a
single `BIO_write_ex` on `rl->next`, then every unprocessed record's raw
packet is written in pop order; `processed_rcds` items are freed without
being written.  A failed `BIO_write_ex` only clears the return flag
(`ret &= ...`) — it does not stop the loop. -/
def dtls_free_writes (st : FreeState) : List (List Nat) :=
  (if st.rbuf_left > 0 then [st.rbuf_bytes] else [])
    ++ pqueue_drain st.unprocessed

theorem pqueue_insert_mem {α : Type} (p : Nat) (x : α)
    (q q' : List (Nat × α)) (hins : pqueue_insert p x q = some q') :
    ∀ z ∈ q', z = (p, x) ∨ z ∈ q := by
  induction q generalizing q' with
  | nil =>
    simp only [pqueue_insert, Option.some.injEq] at hins
    subst hins
    simp
  | cons hd tl ih =>
    obtain ⟨qp, y⟩ := hd
    rw [pqueue_insert] at hins
    split_ifs at hins with h1 h2
    · simp only [Option.some.injEq] at hins
      subst hins
      intro z hz
      rcases List.mem_cons.mp hz with rfl | hz'
      · exact Or.inl rfl
      · exact Or.inr hz'
    · rw [Option.map_eq_some'] at hins
      obtain ⟨t, ht, rfl⟩ := hins
      intro z hz
      rcases List.mem_cons.mp hz with rfl | hz'
      · exact Or.inr (List.mem_cons_self _ _)
      · rcases ih t ht z hz' with h | h
        · exact Or.inl h
        · exact Or.inr (List.mem_cons_of_mem _ h)

theorem pqueue_insert_sorted {α : Type} (p : Nat) (x : α)
    (q q' : List (Nat × α))
    (hs : List.Pairwise (fun a b => a.1 < b.1) q)
    (hins : pqueue_insert p x q = some q') :
    List.Pairwise (fun a b => a.1 < b.1) q' := by
  induction q generalizing q' with
  | nil =>
    simp only [pqueue_insert, Option.some.injEq] at hins
    subst hins
    simp
  | cons hd tl ih =>
    obtain ⟨qp, y⟩ := hd
    rw [List.pairwise_cons] at hs
    obtain ⟨hhd, htl⟩ := hs
    rw [pqueue_insert] at hins
    split_ifs at hins with h1 h2
    · simp only [Option.some.injEq] at hins
      subst hins
      refine List.Pairwise.cons ?_ (List.Pairwise.cons hhd htl)
      intro z hz
      rcases List.mem_cons.mp hz with rfl | hz'
      · exact h1
      · exact lt_trans h1 (hhd z hz')
    · rw [Option.map_eq_some'] at hins
      obtain ⟨t, ht, rfl⟩ := hins
      refine List.Pairwise.cons ?_ (ih t htl ht)
      intro z hz
      rcases pqueue_insert_mem p x tl t ht z hz with rfl | hz'
      · simpa using (show qp < p by omega)
      · exact hhd z hz'

theorem pqueue_drain_eq_map {α : Type} :
    ∀ q : List (Nat × α), pqueue_drain q = q.map Prod.snd
  | [] => rfl
  | (_, _) :: rest => by
      rw [pqueue_drain, pqueue_drain_eq_map rest, List.map_cons]

/-- C7 (spec-modelled queue): on teardown with `k ≤ 100` records in the
unprocessed queue — which satisfies the strictly-increasing-priority
invariant that `pqueue_insert` maintains — `dtls_free` writes exactly `k`
raw packets to the successor sink, all of them after the flush of any
leftover unread buffer bytes, in non-decreasing `(epoch, seq)` priority
order; inserting into the queue preserves the invariant. -/
theorem dtls_free_spec (st : FreeState)
    (hsort : List.Pairwise (fun a b => a.1 < b.1) st.unprocessed)
    (_hk : st.unprocessed.length ≤ 100) :
    dtls_free_writes st
        = (if st.rbuf_left > 0 then [st.rbuf_bytes] else [])
          ++ pqueue_drain st.unprocessed
      ∧ (pqueue_drain st.unprocessed).length = st.unprocessed.length
      ∧ List.Pairwise (· ≤ ·) (st.unprocessed.map Prod.fst)
      ∧ ∀ (p : Nat) (pkt : List Nat) (q' : List (Nat × List Nat)),
          pqueue_insert p pkt st.unprocessed = some q'
          → List.Pairwise (fun a b => a.1 < b.1) q' := by
  refine ⟨rfl, ?_, ?_, ?_⟩
  · rw [pqueue_drain_eq_map, List.length_map]
  · exact List.pairwise_map.mpr (hsort.imp le_of_lt)
  · intro p pkt q' hins
    exact pqueue_insert_sorted p pkt st.unprocessed q' hsort hins

theorem dtls_free_spec_witness :
    (pqueue_drain [((1 : Nat), [10, 11]), (2, [20])]).length
        = ([((1 : Nat), [10, 11]), (2, [20])] : List (Nat × List Nat)).length
      ∧ List.Pairwise (· ≤ ·)
          (([((1 : Nat), [10, 11]), (2, [20])] : List (Nat × List Nat)).map
            Prod.fst)
      ∧ dtls_free_writes ⟨3, [9], [(1, [10, 11]), (2, [20])], []⟩
          = [[9], [10, 11], [20]] :=
  ⟨(dtls_free_spec ⟨3, [9], [(1, [10, 11]), (2, [20])], []⟩ (by decide)
      (by decide)).2.1,
    (dtls_free_spec ⟨3, [9], [(1, [10, 11]), (2, [20])], []⟩ (by decide)
      (by decide)).2.2.1,
    by decide⟩

end DtlsMeth
